import Mathlib

/-!
# Verification of the asynchronous image-processing service

Shallow embedding, in Lean 4, of the parts of the `desafio-fpf` repository
that the specification's claims are about:

* `src/core/utils/coordinate_utils.py` — bounding-box coordinate reconciliation;
* `src/core/processing/image_preprocessor.py` — letterbox resize metadata;
* `src/core/vision_processor.py` — result assembly of `process_image`
  (object formatting, QR-content selection, crop extraction);
* `src/api/tasks/image_processing_tasks.py` — the worker task: payload
  constructors, store/cache handoff, success and failure paths;
* `src/api/services/result_storage.py` — the Redis-backed result store;
* `src/api/controllers/image_controller.py` — result query and listing.

Machine integers of the source are modelled as `Int`/`Nat`; Python floats
appearing in the coordinate arithmetic are modelled as exact rationals `ℚ`;
Python `int(...)` truncation and `//` floor division are modelled explicitly.
Dictionaries with optional keys become structures with `Option` fields.
External effects (the YOLO model, pyzbar, the wall clock, Redis) enter as
explicit parameters, so every definition is executable.
-/

/-- Python `int(q)` applied to a float/rational: truncation toward zero
(`Int.tdiv` of the reduced numerator by the denominator). -/
def pyInt (q : ℚ) : ℤ :=
  q.num.tdiv q.den

/-- Python `a // b` on integers: floor division. -/
def pyFloorDiv (a b : ℤ) : ℤ := Int.fdiv a b

/-- A bounding box `{x, y, width, height}` as the dictionaries used
throughout `coordinate_utils.py`, `yolo_detector.py` and
`vision_processor.py` (all four values are Python ints). -/
structure BBox where
  x : ℤ
  y : ℤ
  width : ℤ
  height : ℤ
deriving Repr, DecidableEq

/-- The preprocessing-metadata dictionary produced by
`ImagePreprocessor.preprocess` and consumed by
`convert_coordinates_to_original`: `scale_factor`, `target_size` and
`original_shape` (shapes are `(first, second)` pairs exactly as the
source tuples; each consumer unpacks them with its own convention). -/
structure PreprocMeta where
  scale_factor : ℚ
  target_size : ℤ × ℤ
  original_shape : ℤ × ℤ
deriving Repr, DecidableEq

namespace CoordinateUtils

/-- `convert_coordinates_to_original` from
`src/core/utils/coordinate_utils.py` (lines 9–78), translated line by
line.  The function unpacks `target_h, target_w = target_size` and
`orig_h, orig_w = original_shape`, recomputes the letterbox offsets,
removes them, clamps to the resized region, rescales with Python `int`
truncation, and clamps to the original image. -/
def convert_coordinates_to_original (bbox : BBox) (m : PreprocMeta) : BBox :=
  let scale_factor := m.scale_factor
  let target_h := m.target_size.1
  let target_w := m.target_size.2
  let orig_h := m.original_shape.1
  let orig_w := m.original_shape.2
  let new_w : ℤ := pyInt ((orig_w : ℚ) * scale_factor)
  let new_h : ℤ := pyInt ((orig_h : ℚ) * scale_factor)
  let x_offset := pyFloorDiv (target_w - new_w) 2
  let y_offset := pyFloorDiv (target_h - new_h) 2
  let x_no_offset := bbox.x - x_offset
  let y_no_offset := bbox.y - y_offset
  let x_no_offset := max 0 (min x_no_offset new_w)
  let y_no_offset := max 0 (min y_no_offset new_h)
  let x2_no_offset := min (x_no_offset + bbox.width) new_w
  let y2_no_offset := min (y_no_offset + bbox.height) new_h
  let width_no_offset := x2_no_offset - x_no_offset
  let height_no_offset := y2_no_offset - y_no_offset
  let x_orig := pyInt ((x_no_offset : ℚ) / scale_factor)
  let y_orig := pyInt ((y_no_offset : ℚ) / scale_factor)
  let width_orig := pyInt ((width_no_offset : ℚ) / scale_factor)
  let height_orig := pyInt ((height_no_offset : ℚ) / scale_factor)
  let x_orig := max 0 (min x_orig orig_w)
  let y_orig := max 0 (min y_orig orig_h)
  let width_orig := min width_orig (orig_w - x_orig)
  let height_orig := min height_orig (orig_h - y_orig)
  { x := x_orig, y := y_orig, width := width_orig, height := height_orig }

/-- `convert_detections_to_original` (lines 81–109): maps the bbox
conversion over the `detected_objects` and `qr_codes` lists.  Here it is
stated on bare bbox lists; the record-level version appears with the
pipeline embedding. -/
def convert_bboxes_to_original (bs : List BBox) (m : PreprocMeta) : List BBox :=
  bs.map (fun b => convert_coordinates_to_original b m)

/-- The spec-side projection for the round-trip law: the inverse
direction of the reconciliation mapping ("subtract offsets, divide by
scale factor"), i.e. scale an original-coordinates box by the Stage-A
scale factor and shift it by the letterbox offsets, materialising pixel
coordinates with Python `int` truncation.  Offsets and resized
dimensions are computed exactly as `convert_coordinates_to_original`
recomputes them from the metadata. -/
def projectToProcessed (bbox : BBox) (m : PreprocMeta) : BBox :=
  let scale_factor := m.scale_factor
  let target_h := m.target_size.1
  let target_w := m.target_size.2
  let orig_h := m.original_shape.1
  let orig_w := m.original_shape.2
  let new_w : ℤ := pyInt ((orig_w : ℚ) * scale_factor)
  let new_h : ℤ := pyInt ((orig_h : ℚ) * scale_factor)
  let x_offset := pyFloorDiv (target_w - new_w) 2
  let y_offset := pyFloorDiv (target_h - new_h) 2
  { x := pyInt ((bbox.x : ℚ) * scale_factor) + x_offset
    y := pyInt ((bbox.y : ℚ) * scale_factor) + y_offset
    width := pyInt ((bbox.width : ℚ) * scale_factor)
    height := pyInt ((bbox.height : ℚ) * scale_factor) }

end CoordinateUtils

namespace ImagePreprocessor

/-- The scale factor computed by `ImagePreprocessor.resize_image`
(`src/core/processing/image_preprocessor.py` lines 72–76):
`scale = min(target_w / w, target_h / h)` where `target_w, target_h =
target_size` (this function unpacks the tuple as `(w, h)`). -/
def resize_scale (target_size : ℤ × ℤ) (h w : ℤ) : ℚ :=
  min ((target_size.1 : ℚ) / (w : ℚ)) ((target_size.2 : ℚ) / (h : ℚ))

/-- The metadata returned by `ImagePreprocessor.preprocess`
(lines 138–167) for an `h × w` input: `original_shape = image.shape[:2]
= (h, w)` and `scale_factor` from `resize_image`. -/
def preprocessMeta (target_size : ℤ × ℤ) (h w : ℤ) : PreprocMeta :=
  { scale_factor := resize_scale target_size h w
    target_size := target_size
    original_shape := (h, w) }

end ImagePreprocessor

/-! ## Detection pipeline (`vision_processor.py`, `yolo_detector.py`)

The YOLO model and the pyzbar decoder are external effects; they enter the
embedding as parameters (the raw detection lists, an abstract image type
`Img`, a crop extractor and the decode functions). Everything the Python
code itself computes — routing, crop bookkeeping, content selection,
formatting, summary — is translated from the source. -/

/-- Python string truthiness of an optional value (`None` and `""` are
falsy), as used by `crop_info.get("decoded_content")` and
`direct_qr.get("content")` checks in `_format_qr_codes`. -/
def truthyStr : Option String → Bool
  | some s => s ≠ ""
  | none => false

/-- Python `x or d` for an optional string `x` (used in
`crop_info["decoded_content"] = qr_content or "DECODE_FAILED"`). -/
def pyOrStr (o : Option String) (d : String) : String :=
  match o with
  | some s => if s = "" then d else s
  | none => d

/-- Python `round(q, 3)`: banker's rounding to three decimal places,
applied to confidences in `_format_objects` / `_format_qr_codes`. -/
def pyRound3 (q : ℚ) : ℚ :=
  let t := q * 1000
  let f := ⌊t⌋
  let r := t - (f : ℚ)
  let n : ℤ :=
    if r < 1/2 then f
    else if (1:ℚ)/2 < r then f + 1
    else if Even f then f else f + 1
  (n : ℚ) / 1000

/-- An object-sink detection as built by `YOLODetector._process_results`
(lines 118–148): `confidence`, `bounding_box` (in the coordinates of the
image handed to the detector, i.e. the 640×640 letterboxed buffer),
`class`, `class_id`, `object_id`. -/
structure ObjDet where
  confidence : ℚ
  bounding_box : BBox
  cls : String
  class_id : ℤ
  object_id : String
deriving Repr, DecidableEq

/-- A QR-sink detection (`"qr"`/`"barcode"` in the class name), same
fields with `qr_id` instead of `object_id`. -/
structure QrDet where
  confidence : ℚ
  bounding_box : BBox
  cls : String
  class_id : ℤ
  qr_id : String
deriving Repr, DecidableEq

/-- The dictionary returned by `YOLODetector.detect` after routing:
`detected_objects`, `qr_codes` and the summary's `classes_detected`. -/
structure Detections where
  detected_objects : List ObjDet
  qr_codes : List QrDet
  classes_detected : List String
deriving Repr, DecidableEq

/-- A crop record built by `YOLODetector.get_qr_crops` (lines 164–215),
over an abstract pixel type `Img`.  The source dict carries the pixel
data under the key `"crop"`; the keys `"crop_array"` and
`"decoded_content"` are absent there and only ever read, respectively
written, by `VisionProcessor.process_image`, hence the `Option` fields
defaulting to `none`. -/
structure CropInfo (Img : Type) where
  qr_id : String
  crop : Img
  confidence : ℚ
  position : ℤ × ℤ
  size : ℤ × ℤ
  saved_path : Option String := none
  crop_array : Option Img := none
  decoded_content : Option String := none

/-- A QR record returned by `QRDecoder.decode_qr_from_image` (pyzbar on
the full grayscale image, lines 36–86).  Only the fields the pipeline
reads (`content` and `bounding_box`) are modelled; `type`, `polygon` and
`quality` are never consumed by `process_image`. -/
structure DirectQr where
  qr_id : String
  content : String
  bounding_box : BBox
deriving Repr, DecidableEq

namespace YoloDetector

/-- `YOLODetector.get_qr_crops`: one crop record per QR detection, pixels
cut from the image handed in (`cropOf` models `image[y1:y2, x1:x2]`),
with `saved_path` present only when a save directory was given. -/
def get_qr_crops {Img : Type} (cropOf : BBox → Img)
    (detections : Detections) (save_directory : Option String) :
    List (CropInfo Img) :=
  detections.qr_codes.map fun q =>
    { qr_id := q.qr_id
      crop := cropOf q.bounding_box
      confidence := q.confidence
      position := (q.bounding_box.x, q.bounding_box.y)
      size := (q.bounding_box.width, q.bounding_box.height)
      saved_path := save_directory.map
        (fun d => d ++ "/" ++ q.qr_id ++ "_crop.jpg") }

end YoloDetector

namespace VisionProcessor

/-- The per-crop decode step of `VisionProcessor.process_image`
(lines 140–144): only when the key `"crop_array"` is present is the
strategy ladder run and `decoded_content` set to its result
`or "DECODE_FAILED"`. -/
def decodeQrCrops {Img : Type} (ladder : Img → Option String)
    (crops : List (CropInfo Img)) : List (CropInfo Img) :=
  crops.map fun ci =>
    match ci.crop_array with
    | some a => { ci with decoded_content := some (pyOrStr (ladder a) "DECODE_FAILED") }
    | none => ci

/-- A formatted object of the result payload (`_format_objects`,
lines 246–272). -/
structure FormattedObj where
  object_id : String
  cls : String
  confidence : ℚ
  bounding_box : BBox
deriving Repr, DecidableEq

/-- A formatted QR entry of the result payload (`_format_qr_codes`,
lines 274–356); `crop_saved`/`crop_decode_success` model the
`crop_info` sub-dictionary (`saved` and `decode_success`). -/
structure FormattedQr where
  qr_id : String
  content : String
  decode_source : String
  position : ℤ × ℤ
  confidence : ℚ
  bounding_box : BBox
  crop_saved : Bool
  crop_decode_success : Option Bool
deriving Repr, DecidableEq

/-- `VisionProcessor._format_objects`: copy id, class, rounded
confidence and the bounding box unchanged. -/
def formatObjects (objs : List ObjDet) : List FormattedObj :=
  objs.map fun o =>
    { object_id := o.object_id
      cls := o.cls
      confidence := pyRound3 o.confidence
      bounding_box := o.bounding_box }

/-- Python-dict lookup where later insertions win: the last matching
entry of the built map. -/
def dictFind {α : Type} (key : α → String) (l : List α) (k : String) :
    Option α :=
  l.reverse.find? (fun a => key a = k)

/-- The position key `f"{bbox['x']}_{bbox['y']}"` used to match a YOLO QR
detection with a directly-decoded QR. -/
def posKey (b : BBox) : String := toString b.x ++ "_" ++ toString b.y

/-- The body of the `for qr in qr_detections` loop of
`VisionProcessor._format_qr_codes` (lines 304–354): look up the
detection's crop record by `qr_id` and a direct decode at the same
position key, then choose `content`/`decode_source` in the source's
priority order — a truthy crop `decoded_content`, else a truthy direct
`content`, else the `PENDING_SCAN` sentinel with source `none`. -/
def formatOneQr {Img : Type} (qr_crops_info : List (CropInfo Img))
    (direct_qr_codes : List DirectQr) (qr : QrDet) : FormattedQr :=
  let crop_info := dictFind CropInfo.qr_id qr_crops_info qr.qr_id
  let direct_qr := dictFind (fun d => posKey d.bounding_box) direct_qr_codes
    (posKey qr.bounding_box)
  let dc : Option String := crop_info.bind CropInfo.decoded_content
  let contentSource : String × String :=
    if truthyStr dc then ((dc.getD ""), "crop")
    else if truthyStr (direct_qr.map DirectQr.content) then
      ((direct_qr.map DirectQr.content).getD "", "direct")
    else ("PENDING_SCAN", "none")
  { qr_id := qr.qr_id
    content := contentSource.1
    decode_source := contentSource.2
    position := (qr.bounding_box.x, qr.bounding_box.y)
    confidence := pyRound3 qr.confidence
    bounding_box := qr.bounding_box
    crop_saved := crop_info.isSome
    crop_decode_success := crop_info.map
      (fun _ => contentSource.1 != "PENDING_SCAN" && contentSource.1 != "DECODE_FAILED") }

/-- `VisionProcessor._format_qr_codes`: the loop over the
detections. -/
def formatQrCodes {Img : Type} (qr_detections : List QrDet)
    (qr_crops_info : List (CropInfo Img)) (direct_qr_codes : List DirectQr) :
    List FormattedQr :=
  qr_detections.map (formatOneQr qr_crops_info direct_qr_codes)

end VisionProcessor

namespace VisionProcessor

/-- The `scan_metadata` block assembled by `process_image`
(lines 154–160). -/
structure ScanMetadata where
  timestamp : String
  image_resolution : String
  processing_time_ms : ℤ
  image_source : String
  preprocessing : PreprocMeta
deriving Repr, DecidableEq

/-- The `summary` block (lines 163–170). -/
structure Summary where
  total_detections : ℕ
  objects_count : ℕ
  qr_codes_count : ℕ
  classes_detected : List String
  qr_crops_saved : ℕ
  qr_codes_decoded : ℕ
deriving Repr, DecidableEq

/-- The result payload of `VisionProcessor.process_image` (lines
152–171).  The `visualization` / `processed_image` /
`source_file_removed` bookkeeping entries concern image files on disk
and are outside this embedding. -/
structure ProcResult where
  scan_metadata : ScanMetadata
  detected_objects : List FormattedObj
  qr_codes : List FormattedQr
  summary : Summary
deriving Repr, DecidableEq

/-- `VisionProcessor.process_image` (lines 88–203), with the external
effects as parameters: the original image is `h × w` with pixels
abstracted by `cropOf` (crops are cut from the **original** image with
the detector's processed-coordinate boxes, line 133), the detector's
output is `detections`, `ladder` is `QRDecoder.decode_multiple_attempts`
and `direct_qr_codes` the result of `QRDecoder.decode_qr_from_image` on
the original image; `timestamp`/`processing_time_ms` come from the
clock.  Crops are extracted (and the ladder run) only when the QR list
is non-empty; the formatted boxes are the detector's boxes unchanged —
`convert_detections_to_original` is never invoked here. -/
def processImage {Img : Type} (h w : ℤ) (image_source : String)
    (detections : Detections) (cropOf : BBox → Img)
    (ladder : Img → Option String) (direct_qr_codes : List DirectQr)
    (save_qr_crops : Bool) (qr_crops_dir : String)
    (timestamp : String) (processing_time_ms : ℤ) : ProcResult :=
  let preprocessing_metadata := ImagePreprocessor.preprocessMeta (640, 640) h w
  let qr_crops_info : List (CropInfo Img) :=
    if detections.qr_codes.isEmpty then []
    else
      decodeQrCrops ladder
        (YoloDetector.get_qr_crops cropOf detections
          (if save_qr_crops then some qr_crops_dir else none))
  { scan_metadata :=
      { timestamp := timestamp
        image_resolution := toString w ++ "x" ++ toString h
        processing_time_ms := processing_time_ms
        image_source := image_source
        preprocessing := preprocessing_metadata }
    detected_objects := formatObjects detections.detected_objects
    qr_codes := formatQrCodes detections.qr_codes qr_crops_info direct_qr_codes
    summary :=
      { total_detections :=
          detections.detected_objects.length + detections.qr_codes.length
        objects_count := detections.detected_objects.length
        qr_codes_count := detections.qr_codes.length
        classes_detected := detections.classes_detected
        qr_crops_saved := if save_qr_crops then qr_crops_info.length else 0
        qr_codes_decoded :=
          (direct_qr_codes.filter (fun d => d.content ≠ "")).length } }

end VisionProcessor

/-! ## Worker task (`src/api/tasks/image_processing_tasks.py`)

Wall-clock timestamps (`datetime.now().isoformat()`) are passed in as
strings; free-form `task_metadata` dictionaries are association lists. -/

/-- The free-form metadata captured at upload. -/
def Meta : Type := List (String × String)
deriving instance DecidableEq, Inhabited for Meta

/-- The `task_info` envelope attached to every worker payload
(`create_initial_result` writes `started_at`, `create_success_result` and
`create_error_result` write `processed_at`). -/
structure TaskInfo where
  task_id : String
  image_path : String
  started_at : Option String := none
  processed_at : Option String := none
  metadata : Meta := []
deriving DecidableEq

/-- A worker result payload as stored in the result store: the
dictionary keys that the storage layer and the controller ever read
(`status`, `error`, `task_info`) plus, for a success payload, the copied
pipeline output. -/
structure Payload where
  status : Option String := none
  error : Option String := none
  task_info : Option TaskInfo := none
  pipeline : Option VisionProcessor.ProcResult := none
deriving DecidableEq

namespace ImageProcessingTasks

/-- `create_initial_result` (lines 17–26): `status="processing"` and the
`task_info` envelope with `started_at`. -/
def create_initial_result (task_id image_path : String) (now : String)
    (task_metadata : Meta) : Payload :=
  { status := some "processing"
    task_info := some
      { task_id := task_id, image_path := image_path
        started_at := some now, metadata := task_metadata } }

/-- `create_success_result` (lines 41–55): copy the pipeline output, add
the `task_info` envelope with `processed_at`, set `status="COMPLETED"`
(the uppercase literal of line 54). -/
def create_success_result (task_id image_path : String)
    (processing_result : VisionProcessor.ProcResult) (now : String)
    (task_metadata : Meta) : Payload :=
  { pipeline := some processing_result
    status := some "COMPLETED"
    task_info := some
      { task_id := task_id, image_path := image_path
        processed_at := some now, metadata := task_metadata } }

/-- `create_error_result` (lines 58–73): the `task_info` envelope with
`processed_at`, `status="failed"`, and the error message. -/
def create_error_result (task_id image_path error_msg : String)
    (now : String) (task_metadata : Meta) : Payload :=
  { task_info := some
      { task_id := task_id, image_path := image_path
        processed_at := some now, metadata := task_metadata }
    status := some "failed"
    error := some error_msg }

/-- One observable step of `process_image_task`: a result-store write
(with the Boolean that `ResultStorage.save_result` returned), a
transient-cache clear (`redis_cleaner.clear_task_result`), or a progress
token on the bus result channel (`update_state`). -/
inductive WorkerEvent where
  | storeWrite (task_id : String) (payload : Payload) (ok : Bool)
  | cacheClear (task_id : String)
  | progress (state : String)
deriving DecidableEq

/-- The environment one run of the task observes: whether the image file
exists, the pipeline outcome of `process_image_core` (`Except` models a
raised exception), the success of each of the two store writes, and the
clock readings. -/
structure TaskEnv where
  fileExists : Bool
  pipeline : Except String VisionProcessor.ProcResult
  initialSaveOk : Bool
  finalSaveOk : Bool
  startedAt : String
  processedAt : String

/-- `handle_processing_result` (lines 76–81): save, and clear the cache
only when the save reported success. -/
def handle_processing_result (task_id : String) (result : Payload)
    (saveOk : Bool) : List WorkerEvent :=
  [WorkerEvent.storeWrite task_id result saveOk] ++
    (if saveOk then [WorkerEvent.cacheClear task_id] else [])

/-- The body of the `try` block: `validate_image_path` raises
`FileNotFoundError(f"Imagem não encontrada: {image_path}")` when the
file is missing, otherwise the pipeline outcome decides. -/
def tryOutcome (image_path : String) (env : TaskEnv) :
    Except String VisionProcessor.ProcResult :=
  if env.fileExists then env.pipeline
  else .error ("Imagem não encontrada: " ++ image_path)

/-- `process_image_task` (lines 98–151): the initial `processing` write,
the `PROCESSING` token, then either the success path (success payload →
`handle_processing_result` → `SUCCESS` token → return) or the exception
path (`FAILURE` token → error payload write → unconditional cache clear →
re-raise).  Returns the event trace and the task outcome (`.error`
models the re-raise reaching the bus). -/
def process_image_task (task_id image_path : String) (task_metadata : Meta)
    (env : TaskEnv) : List WorkerEvent × Except String Payload :=
  let initial_result := create_initial_result task_id image_path env.startedAt
    task_metadata
  let preamble := [WorkerEvent.storeWrite task_id initial_result env.initialSaveOk,
    WorkerEvent.progress "PROCESSING"]
  match tryOutcome image_path env with
  | .ok processing_result =>
    let result := create_success_result task_id image_path processing_result
      env.processedAt task_metadata
    (preamble ++ handle_processing_result task_id result env.finalSaveOk ++
      [WorkerEvent.progress "SUCCESS"], .ok result)
  | .error e =>
    let error_msg := "Erro no processamento da imagem " ++ image_path ++ ": " ++ e
    let result := create_error_result task_id image_path error_msg
      env.processedAt task_metadata
    (preamble ++ [WorkerEvent.progress "FAILURE",
      WorkerEvent.storeWrite task_id result env.finalSaveOk,
      WorkerEvent.cacheClear task_id], .error e)

end ImageProcessingTasks

/-! ## Result store (`src/api/services/result_storage.py`)

Redis is modelled as explicit state: the `vision:result:*` and
`vision:task:*` keyspaces become association lists and the
`vision:results_index` set becomes a duplicate-free list whose order
models the (arbitrary) enumeration order of `SMEMBERS`.  The wall clock
is a `ℕ` parameter; `created_at`/`expires_at` ISO strings are modelled
by these naturals, whose order matches the lexicographic order of the
ISO timestamps they stand for. -/

namespace ResultStorage

/-- The task-metadata record written by `save_result` (lines 43–49) and
returned by `get_task_metadata`. -/
structure TaskMeta where
  task_id : String
  status : String
  created_at : ℕ
  expires_at : ℕ
  has_result : Bool
deriving Repr, DecidableEq

/-- The Redis state owned by `ResultStorage`. -/
structure Store where
  results : List (String × Payload) := []
  tasks : List (String × TaskMeta) := []
  index : List String := []
deriving DecidableEq

/-- `SETEX key value`: overwrite the binding for `key`. -/
def setKey {β : Type} (l : List (String × β)) (k : String) (v : β) :
    List (String × β) :=
  (k, v) :: l.filter (fun p => p.1 ≠ k)

/-- Assoc lookup for a Redis `GET`. -/
def getKey {β : Type} (l : List (String × β)) (k : String) : Option β :=
  (l.find? (fun p => p.1 = k)).map (·.2)

/-- `SADD` on the index set. -/
def sadd (index : List String) (k : String) : List String :=
  if k ∈ index then index else index ++ [k]

/-- `self.default_ttl = 7 * 24 * 60 * 60` (line 32). -/
def default_ttl : ℕ := 7 * 24 * 60 * 60

/-- The `task_metadata` dictionary built inside `save_result`
(lines 43–49): status copied from the payload (`"unknown"` when the key
is absent), `created_at = datetime.now()`, `expires_at = now + ttl`,
`has_result = True`. -/
def task_metadata_of (task_id : String) (result : Payload) (now ttl : ℕ) :
    TaskMeta :=
  { task_id := task_id
    status := result.status.getD "unknown"
    created_at := now
    expires_at := now + ttl
    has_result := true }

/-- `save_result` (lines 34–57), the successful branch: one pipeline
writing the payload under the result key, the fresh metadata under the
task key, and adding the id to the index. -/
def save_result (s : Store) (task_id : String) (result : Payload)
    (now : ℕ) (ttl : ℕ) : Store :=
  { results := setKey s.results task_id result
    tasks := setKey s.tasks task_id (task_metadata_of task_id result now ttl)
    index := sadd s.index task_id }

/-- `get_result` (lines 63–75). -/
def get_result (s : Store) (task_id : String) : Option Payload :=
  getKey s.results task_id

/-- `get_task_metadata` (lines 77–89). -/
def get_task_metadata (s : Store) (task_id : String) : Option TaskMeta :=
  getKey s.tasks task_id

/-- `list_all_results` (lines 91–109): take the first `limit` ids from
the index enumeration, fetch their metadata (dropping ids whose task key
is absent), and sort by `created_at`, newest first
(`results.sort(key=..., reverse=True)`). -/
def list_all_results (s : Store) (limit : ℕ) : List TaskMeta :=
  let task_ids := s.index.take limit
  let results := task_ids.filterMap (get_task_metadata s)
  results.insertionSort (fun a b => b.created_at < a.created_at)

/-- `list_results_by_status` (lines 134–147): fetch `limit * 2` records,
keep the exact status matches, truncate to `limit`. -/
def list_results_by_status (s : Store) (status : String) (limit : ℕ) :
    List TaskMeta :=
  ((list_all_results s (limit * 2)).filter
    (fun r => r.status = status)).take limit

/-- `list_results_by_period` (lines 111–132): fetch `limit * 2` records,
keep those with `start ≤ created_at ≤ end`, truncate to `limit`. -/
def list_results_by_period (s : Store) (start_date end_date : ℕ)
    (limit : ℕ) : List TaskMeta :=
  ((list_all_results s (limit * 2)).filter
    (fun r => start_date ≤ r.created_at ∧ r.created_at ≤ end_date)).take limit

end ResultStorage

/-! ## Ingress controller (`src/api/controllers/image_controller.py`) -/

namespace ImageController

/-- The HTTP outcome of `ImageController.get_result`: the payload with
`200`, or an `HTTPException` with status `202` or `404`. -/
inductive GetResultResponse where
  | ok (payload : Payload)
  | accepted
  | notFound
deriving DecidableEq

/-- `ImageController.get_result` (lines 86–117): read the result key; if
a payload is there, return it (200) whatever its status; otherwise
consult the bus result channel (`AsyncResult.state`, passed in as
`celery_state`): `PENDING`/`PROCESSING` → 202, anything else → 404.
(A stored payload is never the empty dict — every worker payload carries
`status` — so Python's `if not result:` is `Option.isNone` here.) -/
def get_result (s : ResultStorage.Store) (celery_state : String)
    (task_id : String) : GetResultResponse :=
  match ResultStorage.get_result s task_id with
  | some result => .ok result
  | none =>
    if celery_state = "PENDING" then .accepted
    else if celery_state = "PROCESSING" then .accepted
    else .notFound

/-- The `TaskListResponse` model returned by `list_results`. -/
structure TaskListResponse where
  tasks : List ResultStorage.TaskMeta
  total : ℕ
  page : ℕ
  limit : ℕ
deriving Repr, DecidableEq

/-- `ImageController.list_results` (lines 119–153): cap `limit` at 100,
fetch `limit * page` records (status-filtered when requested), slice out
page `page`, and report `total = len(tasks)` — the length of the fetched
slice, not of the whole store. -/
def list_results (s : ResultStorage.Store) (page limit : ℕ)
    (status : Option String) : TaskListResponse :=
  let limit := if 100 < limit then 100 else limit
  let tasks :=
    match status with
    | some st => ResultStorage.list_results_by_status s st (limit * page)
    | none => ResultStorage.list_all_results s (limit * page)
  let start_idx := (page - 1) * limit
  let paginated_tasks := (tasks.drop start_idx).take limit
  { tasks := paginated_tasks
    total := tasks.length
    page := page
    limit := limit }

end ImageController

/-! ## Worker model loading (`process_image_core` and
`YOLODetector.__init__`)

`YOLODetector.__init__` (yolo_detector.py lines 18–30) calls
`_load_model()` unconditionally; `VisionProcessor.__init__`
(vision_processor.py line 81) constructs a fresh `YOLODetector`;
`create_vision_processor` (lines 450–483) constructs a fresh
`VisionProcessor`; and `process_image_core` (image_processing_tasks.py
lines 84–95) calls `create_vision_processor` on every task.  The state
below counts the model loads a worker process performs, keyed by
`(model_path, confidence_threshold)`. -/

namespace WorkerModel

/-- The sequence of `_load_model` invocations (with their keys) a worker
process has performed. -/
structure LoadState where
  loads : List (String × ℚ) := []
deriving Repr, DecidableEq

/-- `YOLODetector.__init__`: records one fresh model load. -/
def yolo_detector_init (st : LoadState) (model_path : String)
    (confidence_threshold : ℚ) : LoadState :=
  { loads := st.loads ++ [(model_path, confidence_threshold)] }

/-- `create_vision_processor` → `VisionProcessor.__init__`: builds a new
`YOLODetector` with the processor's key. -/
def create_vision_processor_loads (st : LoadState) (model_path : String)
    (confidence_threshold : ℚ) : LoadState :=
  yolo_detector_init st model_path confidence_threshold

/-- `process_image_core`: one call per consumed job, each constructing a
fresh processor. -/
def process_image_core_loads (st : LoadState) (model_path : String)
    (confidence_threshold : ℚ) : LoadState :=
  create_vision_processor_loads st model_path confidence_threshold

/-- A worker consuming a sequence of jobs, each with its detector key. -/
def run_jobs (st : LoadState) (jobs : List (String × ℚ)) : LoadState :=
  jobs.foldl (fun s j => process_image_core_loads s j.1 j.2) st

end WorkerModel

/-- A concrete pipeline payload used to instantiate theorems about the
worker on explicit inputs. -/
def sampleProcResult : VisionProcessor.ProcResult :=
  { scan_metadata :=
      { timestamp := "2024-01-01T00:00:00Z"
        image_resolution := "320x240"
        processing_time_ms := 5
        image_source := "uploads/img.jpg"
        preprocessing := ImagePreprocessor.preprocessMeta (640, 640) 240 320 }
    detected_objects := []
    qr_codes := []
    summary :=
      { total_detections := 0, objects_count := 0, qr_codes_count := 0
        classes_detected := [], qr_crops_saved := 0, qr_codes_decoded := 0 } }

/-! ## Claims -/

/-- On nonnegative rationals, Python truncation agrees with the floor. -/
theorem pyInt_eq_floor (q : ℚ) (h : 0 ≤ q) : pyInt q = ⌊q⌋ := by
  have hnum : 0 ≤ q.num := Rat.num_nonneg.mpr h
  rw [Rat.floor_def, pyInt, Int.tdiv_eq_ediv hnum (by positivity)]

/-- For a nonnegative divisor, Python floor division agrees with Lean's
integer division. -/
theorem pyFloorDiv_eq_div (a b : ℤ) (h : 0 ≤ b) : pyFloorDiv a b = a / b :=
  Int.fdiv_eq_ediv a h


/-- **C10.** Every `save_result` call rewrites the task-metadata record
wholesale: after two saves of the same task the record is exactly the one
built from the second call's payload status and clock reading — the prior
store contents, earlier payload and earlier write time leave no trace, so
the stored `created_at` is the time of the latest write, and the only
metadata fields derived from the payload or the clock are `status`
(payload), `created_at` and `expires_at` (clock); `has_result` is the
constant `True`. -/
theorem C10_metadata_wholesale_rewrite (s : ResultStorage.Store)
    (tid : String) (p1 p2 : Payload) (t1 t2 ttl : ℕ) :
    ResultStorage.get_task_metadata
        (ResultStorage.save_result
          (ResultStorage.save_result s tid p1 t1 ttl) tid p2 t2 ttl) tid =
      some { task_id := tid, status := p2.status.getD "unknown",
             created_at := t2, expires_at := t2 + ttl, has_result := true } := by
  simp [ResultStorage.get_task_metadata, ResultStorage.save_result,
    ResultStorage.setKey, ResultStorage.getKey, ResultStorage.task_metadata_of,
    List.find?]

/-- **C2.** A worker that consumes two jobs with the *same* detector key
performs two model loads: `process_image_core` constructs a fresh
`VisionProcessor` (and hence a fresh `YOLODetector`, whose `__init__`
calls `_load_model`) on every job, so no process-wide slot is consulted
on the task path. -/
theorem C2_model_reloaded_per_job :
    (WorkerModel.run_jobs {} [("model.pt", 1/2), ("model.pt", 1/2)]).loads.length = 2 := by
  simp [WorkerModel.run_jobs, WorkerModel.process_image_core_loads,
    WorkerModel.create_vision_processor_loads, WorkerModel.yolo_detector_init]

/-- **C5, counterexample.** The success payload the worker persists has
status `"COMPLETED"` — the uppercase literal of
`create_success_result` — which is not an element of the specified set
`{pending, processing, completed, failed}`. -/
theorem C5_success_status_uppercase :
    (ImageProcessingTasks.create_success_result "t1" "uploads/img.jpg"
        sampleProcResult "2024-01-01T00:00:01" []).status = some "COMPLETED" ∧
      "COMPLETED" ∉ (["pending", "processing", "completed", "failed"] : List String) := by
  exact ⟨rfl, by decide⟩

/-- **C5, amended.** Every payload the worker hands to the result store —
the initial, success and error payloads, in any run — carries a status in
`{processing, COMPLETED, failed}`, and the task-metadata record the store
derives from such a payload mirrors that same string. -/
theorem C5_persisted_status_set (task_id image_path : String)
    (task_metadata : Meta) (env : ImageProcessingTasks.TaskEnv)
    (ev : ImageProcessingTasks.WorkerEvent)
    (hev : ev ∈ (ImageProcessingTasks.process_image_task task_id image_path
      task_metadata env).1)
    (tid : String) (p : Payload) (ok : Bool)
    (hw : ev = ImageProcessingTasks.WorkerEvent.storeWrite tid p ok) :
    (p.status = some "processing" ∨ p.status = some "COMPLETED" ∨
      p.status = some "failed") ∧
    ∀ now ttl, (ResultStorage.task_metadata_of tid p now ttl).status =
      p.status.getD "unknown" := by
  constructor
  · subst hw
    unfold ImageProcessingTasks.process_image_task at hev
    cases hout : ImageProcessingTasks.tryOutcome image_path env with
    | ok r =>
      rw [hout] at hev
      simp [ImageProcessingTasks.handle_processing_result] at hev
      rcases hev with ⟨-, hp, -⟩ | ⟨-, hp, -⟩
      · exact Or.inl (by rw [hp]; rfl)
      · exact Or.inr (Or.inl (by rw [hp]; rfl))
    | error e =>
      rw [hout] at hev
      simp at hev
      rcases hev with ⟨-, hp, -⟩ | ⟨-, hp, -⟩
      · exact Or.inl (by rw [hp]; rfl)
      · exact Or.inr (Or.inr (by rw [hp]; rfl))
  · intro now ttl
    rfl

/-- **C5, witness.** The amended statement at an explicit run: the
worker's failure-path store write on a missing file carries status
`"failed"`. -/
theorem C5_persisted_status_set_witness :
    ((some "failed" : Option String) = some "processing" ∨
      (some "failed" : Option String) = some "COMPLETED" ∨
      (some "failed" : Option String) = some "failed") ∧
    ∀ now ttl, (ResultStorage.task_metadata_of "t1"
        (ImageProcessingTasks.create_error_result "t1" "uploads/img.jpg"
          "Erro no processamento da imagem uploads/img.jpg: Imagem não encontrada: uploads/img.jpg"
          "2024-01-01T00:00:01" []) now ttl).status =
      (ImageProcessingTasks.create_error_result "t1" "uploads/img.jpg"
          "Erro no processamento da imagem uploads/img.jpg: Imagem não encontrada: uploads/img.jpg"
          "2024-01-01T00:00:01" []).status.getD "unknown" := by
  have h := C5_persisted_status_set "t1" "uploads/img.jpg" []
    { fileExists := false, pipeline := Except.ok sampleProcResult
      initialSaveOk := true, finalSaveOk := true
      startedAt := "2024-01-01T00:00:00", processedAt := "2024-01-01T00:00:01" }
    (ImageProcessingTasks.WorkerEvent.storeWrite "t1"
      (ImageProcessingTasks.create_error_result "t1" "uploads/img.jpg"
        "Erro no processamento da imagem uploads/img.jpg: Imagem não encontrada: uploads/img.jpg"
        "2024-01-01T00:00:01" []) true)
    (by decide) "t1" _ true rfl
  exact h

/-- **C6, counterexample.** On the failure path the worker clears the
transient cache even when *no* store write succeeded: with both writes
failing, the trace still contains the cache clear while every store
write reports failure. -/
theorem C6_failure_path_clears_despite_store_failure :
    let env : ImageProcessingTasks.TaskEnv :=
      { fileExists := false, pipeline := Except.error "x"
        initialSaveOk := false, finalSaveOk := false
        startedAt := "2024-01-01T00:00:00", processedAt := "2024-01-01T00:00:01" }
    let tr := (ImageProcessingTasks.process_image_task "t1" "uploads/img.jpg" [] env).1
    ImageProcessingTasks.WorkerEvent.cacheClear "t1" ∈ tr ∧
      ∀ ev ∈ tr, ∀ tid p ok,
        ev = ImageProcessingTasks.WorkerEvent.storeWrite tid p ok → ok = false := by
  refine ⟨by simp [ImageProcessingTasks.process_image_task,
    ImageProcessingTasks.tryOutcome], ?_⟩
  intro ev hev tid p ok hw
  subst hw
  simp [ImageProcessingTasks.process_image_task,
    ImageProcessingTasks.tryOutcome] at hev
  rcases hev with ⟨-, -, h⟩ | ⟨-, -, h⟩ <;> exact h

/-- **C6, amended.** The cache-clear policy actually implemented: on the
success path (`handle_processing_result`) the cache entry is cleared
precisely when the final store write succeeded; on the failure path it
is cleared unconditionally, whether or not any store write succeeded. -/
theorem C6_cache_clear_policy (task_id image_path : String)
    (task_metadata : Meta) (env : ImageProcessingTasks.TaskEnv) :
    (∀ r, ImageProcessingTasks.tryOutcome image_path env = Except.ok r →
      (ImageProcessingTasks.WorkerEvent.cacheClear task_id ∈
          (ImageProcessingTasks.process_image_task task_id image_path
            task_metadata env).1 ↔ env.finalSaveOk = true)) ∧
    (∀ e, ImageProcessingTasks.tryOutcome image_path env = Except.error e →
      ImageProcessingTasks.WorkerEvent.cacheClear task_id ∈
        (ImageProcessingTasks.process_image_task task_id image_path
          task_metadata env).1) := by
  constructor
  · intro r hout
    unfold ImageProcessingTasks.process_image_task
    rw [hout]
    cases hfin : env.finalSaveOk <;>
      simp [ImageProcessingTasks.handle_processing_result, hfin]
  · intro e hout
    unfold ImageProcessingTasks.process_image_task
    rw [hout]
    simp

/-- **C6, witness.** The amended policy at an explicit run: a successful
pipeline with a successful final write does clear the cache. -/
theorem C6_cache_clear_policy_witness :
    ImageProcessingTasks.WorkerEvent.cacheClear "t1" ∈
      (ImageProcessingTasks.process_image_task "t1" "uploads/img.jpg" []
        { fileExists := true, pipeline := Except.ok sampleProcResult
          initialSaveOk := true, finalSaveOk := true
          startedAt := "2024-01-01T00:00:00"
          processedAt := "2024-01-01T00:00:01" }).1 :=
  ((C6_cache_clear_policy "t1" "uploads/img.jpg" []
      { fileExists := true, pipeline := Except.ok sampleProcResult
        initialSaveOk := true, finalSaveOk := true
        startedAt := "2024-01-01T00:00:00"
        processedAt := "2024-01-01T00:00:01" }).1 sampleProcResult rfl).mpr rfl

/-- **C3, counterexample.** A task in the non-terminal status
`processing` is answered with `200`: the worker's initial write stores
the `processing` payload under the *result* key, and the controller
returns any stored payload as a `200` — so an in-flight task yields
`200` with the in-flight payload, not `202`. -/
theorem C3_processing_task_returns_200 :
    let p := ImageProcessingTasks.create_initial_result "t1" "uploads/img.jpg"
      "2024-01-01T00:00:00" []
    let store := ResultStorage.save_result {} "t1" p 0 ResultStorage.default_ttl
    ImageController.get_result store "PROCESSING" "t1" =
        ImageController.GetResultResponse.ok p ∧
      p.status = some "processing" := by
  exact ⟨rfl, rfl⟩

/-- **C3, amended.** The result query returns `200` with the stored
payload whenever *any* payload is stored under the task's result key —
terminal or not — and returns `202` only when no payload is stored and
the bus state is `PENDING` or `PROCESSING` (`404` otherwise). -/
theorem C3_get_result_cases (s : ResultStorage.Store)
    (celery_state task_id : String) :
    (∀ p, ResultStorage.get_result s task_id = some p →
      ImageController.get_result s celery_state task_id =
        ImageController.GetResultResponse.ok p) ∧
    (ResultStorage.get_result s task_id = none →
      ImageController.get_result s celery_state task_id =
        (if celery_state = "PENDING" ∨ celery_state = "PROCESSING" then
          ImageController.GetResultResponse.accepted
        else ImageController.GetResultResponse.notFound)) := by
  constructor
  · intro p hp
    unfold ImageController.get_result
    rw [hp]
  · intro hnone
    unfold ImageController.get_result
    rw [hnone]
    by_cases h1 : celery_state = "PENDING" <;>
      by_cases h2 : celery_state = "PROCESSING" <;>
      simp [h1, h2]

/-- **C3, witness.** The amended statement at an explicit store: an
unknown task id with bus state `SUCCESS` yields `404`. -/
theorem C3_get_result_cases_witness :
    ImageController.get_result {} "SUCCESS" "t9" =
      ImageController.GetResultResponse.notFound := by
  have h := (C3_get_result_cases {} "SUCCESS" "t9").2 rfl
  simpa using h

/-- **C8.** For every exception raised inside the worker's `try` block —
missing image file or pipeline failure — the run emits exactly: the
initial write, the `PROCESSING` and `FAILURE` tokens, a store write of
the error payload (status `failed`, the formatted error message, the
`task_info` envelope with `task_id`, `image_path`, `processed_at` and
the metadata), then the cache clear, and the task re-raises the
exception to the bus (`.error e` outcome). -/
theorem C8_failure_path_events (task_id image_path : String)
    (task_metadata : Meta) (env : ImageProcessingTasks.TaskEnv) (e : String)
    (hout : ImageProcessingTasks.tryOutcome image_path env = Except.error e) :
    let error_msg := "Erro no processamento da imagem " ++ image_path ++ ": " ++ e
    let errp := ImageProcessingTasks.create_error_result task_id image_path
      error_msg env.processedAt task_metadata
    ImageProcessingTasks.process_image_task task_id image_path task_metadata env =
      ([ImageProcessingTasks.WorkerEvent.storeWrite task_id
          (ImageProcessingTasks.create_initial_result task_id image_path
            env.startedAt task_metadata) env.initialSaveOk,
        ImageProcessingTasks.WorkerEvent.progress "PROCESSING",
        ImageProcessingTasks.WorkerEvent.progress "FAILURE",
        ImageProcessingTasks.WorkerEvent.storeWrite task_id errp env.finalSaveOk,
        ImageProcessingTasks.WorkerEvent.cacheClear task_id], Except.error e) ∧
    errp.status = some "failed" ∧
    errp.error = some error_msg ∧
    errp.task_info = some
      { task_id := task_id, image_path := image_path
        processed_at := some env.processedAt, metadata := task_metadata } := by
  refine ⟨?_, rfl, rfl, rfl⟩
  unfold ImageProcessingTasks.process_image_task
  rw [hout]
  rfl

/-- **C8, witness.** The failure path at an explicit run: a job whose
image file is missing re-raises `Imagem não encontrada` after persisting
the failed payload and clearing the cache. -/
theorem C8_failure_path_events_witness :
    (ImageProcessingTasks.process_image_task "t1" "uploads/img.jpg" []
        { fileExists := false, pipeline := Except.ok sampleProcResult
          initialSaveOk := true, finalSaveOk := true
          startedAt := "2024-01-01T00:00:00"
          processedAt := "2024-01-01T00:00:01" }).2 =
      Except.error "Imagem não encontrada: uploads/img.jpg" := by
  have h := C8_failure_path_events "t1" "uploads/img.jpg" []
    { fileExists := false, pipeline := Except.ok sampleProcResult
      initialSaveOk := true, finalSaveOk := true
      startedAt := "2024-01-01T00:00:00", processedAt := "2024-01-01T00:00:01" }
    "Imagem não encontrada: uploads/img.jpg" rfl
  rw [h.1]

/-- Auxiliary: `filterMap` drops nothing when the function succeeds on
every element. -/
theorem length_filterMap_of_isSome {α β : Type} (f : α → Option β)
    (l : List α) (h : ∀ a ∈ l, (f a).isSome) :
    (l.filterMap f).length = l.length := by
  induction l with
  | nil => rfl
  | cons a t ih =>
    cases hfa : f a with
    | some b =>
      simp [List.filterMap_cons, hfa,
        ih (fun x hx => h x (List.mem_cons_of_mem _ hx))]
    | none =>
      exact absurd (h a (List.mem_cons_self a t)) (by simp [hfa])

/-- **C7, counterexample.** With 10 stored tasks (ids `t0..t9`, one per
clock tick), `page=2`, `limit=3`: the listing reports `total = 6`, not
`total = 10` — the controller fetches only `limit * page` index entries
and reports the length of that fetched slice — and the page shown is the
4th–6th newest *of the fetched subset* (`created_at` 2,1,0), not the 4th
most recent of the store. -/
theorem C7_total_not_store_size :
    let metas := (List.range 10).map (fun i =>
      ({ task_id := "t" ++ toString i, status := "completed", created_at := i,
         expires_at := i + 604800, has_result := true } : ResultStorage.TaskMeta))
    let store : ResultStorage.Store :=
      { results := [], tasks := metas.map (fun m => (m.task_id, m)),
        index := metas.map (fun m => m.task_id) }
    (ImageController.list_results store 2 3 none).total = 6 ∧
      store.index.length = 10 ∧
      (ImageController.list_results store 2 3 none).tasks.length = 3 ∧
      (ImageController.list_results store 2 3 none).tasks.map
        (fun m => m.created_at) = [2, 1, 0] := by
  decide

/-- **C7, amended.** For a store whose index ids all resolve to metadata,
`page ≥ 1` and `limit ≤ 100`: the unfiltered listing reports
`total = min(limit·page, N)` (the number of fetched records, not the
store size `N`) and a page of length
`min(limit, min(limit·page, N) − (page−1)·limit)` — the page being a
slice of the sorted *fetched subset*, whose selection follows the
index enumeration order; with a status filter, `total` is the number of
matching records among the first `min(2·limit·page, N)` fetched, capped
at `limit·page`. -/
theorem C7_listing_page_shape (s : ResultStorage.Store) (page limit : ℕ)
    (st : String) (hpage : 1 ≤ page) (hlimit : limit ≤ 100)
    (hmeta : ∀ tid ∈ s.index, (ResultStorage.get_task_metadata s tid).isSome) :
    ((ImageController.list_results s page limit none).total =
        min (limit * page) s.index.length ∧
      (ImageController.list_results s page limit none).tasks.length =
        min limit (min (limit * page) s.index.length - (page - 1) * limit)) ∧
    (ImageController.list_results s page limit (some st)).total =
      min (limit * page)
        (((s.index.take (limit * page * 2)).filterMap
            (ResultStorage.get_task_metadata s)).countP
          (fun r => decide (r.status = st))) := by
  have hcap : (if 100 < limit then 100 else limit) = limit :=
    if_neg (by omega)
  have hall : ∀ n, (ResultStorage.list_all_results s n).length =
      min n s.index.length := by
    intro n
    unfold ResultStorage.list_all_results
    rw [List.length_insertionSort,
      length_filterMap_of_isSome _ _
        (fun tid htid => hmeta tid (List.take_subset _ _ htid)),
      List.length_take]
  refine ⟨⟨?_, ?_⟩, ?_⟩
  · simp only [ImageController.list_results, hcap]
    exact hall _
  · simp only [ImageController.list_results, hcap]
    rw [List.length_take, List.length_drop, hall]
  · simp only [ImageController.list_results, hcap,
      ResultStorage.list_results_by_status]
    rw [List.length_take, ← List.countP_eq_length_filter]
    congr 1
    exact ((List.perm_insertionSort _ _).countP_eq _)

/-- **C7, witness.** The amended shape at an explicit store: one task,
`page = 1`, `limit = 3` — `total = 1` and one task on the page. -/
theorem C7_listing_page_shape_witness :
    let m : ResultStorage.TaskMeta :=
      { task_id := "t0", status := "completed", created_at := 0,
        expires_at := 604800, has_result := true }
    let s : ResultStorage.Store :=
      { results := [], tasks := [("t0", m)], index := ["t0"] }
    (ImageController.list_results s 1 3 none).total = min (3 * 1) 1 ∧
      (ImageController.list_results s 1 3 none).tasks.length =
        min 3 (min (3 * 1) 1 - 0 * 3) := by
  intro m s
  exact (C7_listing_page_shape s 1 3 "completed" (by decide) (by decide)
    (by decide)).1

/-- **C1.** `process_image` returns the detector's boxes unchanged:
for a 320×240 image whose detector (working on the 640×640 letterboxed
buffer) reports the box `(100, 180, 200, 150)`, the payload carries that
processed-coordinate box verbatim — `convert_detections_to_original`,
which would map it to the original-coordinate box `(50, 50, 100, 75)`,
is never invoked by the pipeline — and the reported box even violates
the original-image bound (`y + height = 330 > 240 = H`). -/
theorem C1_bbox_not_reconciled :
    let det : ObjDet :=
      { confidence := 9/10,
        bounding_box := { x := 100, y := 180, width := 200, height := 150 },
        cls := "pallet", class_id := 0, object_id := "OBJ_001" }
    let dets : Detections :=
      { detected_objects := [det], qr_codes := [],
        classes_detected := ["pallet"] }
    let res := @VisionProcessor.processImage Unit 240 320
      "uploads/img.jpg" dets (fun _ => ()) (fun _ => none) [] false
      "qr_crops" "2024-01-01T00:00:00Z" 5
    res.detected_objects.map (fun o => o.bounding_box) =
        [{ x := 100, y := 180, width := 200, height := 150 }] ∧
      CoordinateUtils.convert_coordinates_to_original
          { x := 100, y := 180, width := 200, height := 150 }
          (ImagePreprocessor.preprocessMeta (640, 640) 240 320) =
        { x := 50, y := 50, width := 100, height := 75 } ∧
      (180 : ℤ) + 150 > 240 := by
  refine ⟨rfl, ?_, by decide⟩
  norm_num [CoordinateUtils.convert_coordinates_to_original,
    ImagePreprocessor.preprocessMeta, ImagePreprocessor.resize_scale,
    pyInt_eq_floor, pyFloorDiv_eq_div]

/-- **C4, counterexample.** A QR detection whose crop-ladder attempts
all fail (the decoder returns `None` on every strategy) and that has no
direct full-image match is formatted with `content = "PENDING_SCAN"` and
`decode_source = "none"` — not `content = "DECODE_FAILED"`: the pipeline
reads the key `crop_array`, which `get_qr_crops` never writes (it writes
`crop`), so the ladder's result is never attached to the crop record. -/
theorem C4_failed_ladder_yields_pending_scan :
    let qr : QrDet :=
      { confidence := 9/10,
        bounding_box := { x := 10, y := 10, width := 1, height := 1 },
        cls := "qr_code", class_id := 1, qr_id := "QR_001" }
    let dets : Detections :=
      { detected_objects := [], qr_codes := [qr],
        classes_detected := ["qr_code"] }
    let res := @VisionProcessor.processImage Unit 480 640
      "uploads/img.jpg" dets (fun _ => ()) (fun _ => none) [] true
      "qr_crops" "2024-01-01T00:00:00Z" 5
    res.qr_codes.map (fun q => (q.content, q.decode_source)) =
      [("PENDING_SCAN", "none")] := by
  rfl

/-- **C4, amended.** Content selection for a detected QR: the format
step chooses, in priority order, a truthy crop `decoded_content` (source
`crop`), else a truthy direct full-image decode at the same position key
(source `direct`), else the `PENDING_SCAN` sentinel (source `none`); and
in the assembled pipeline the crop branch is unreachable — every crop
record reaches the formatter with `decoded_content = None` because the
ladder result is attached only under the never-written `crop_array`
key — so every formatted QR has source `direct`, or source `none` with
content `PENDING_SCAN`. -/
theorem C4_qr_content_priority :
    (∀ (Img : Type) (crops : List (CropInfo Img)) (direct : List DirectQr)
      (qr : QrDet),
      let crop_info := VisionProcessor.dictFind CropInfo.qr_id crops qr.qr_id
      let direct_qr := VisionProcessor.dictFind
        (fun d => VisionProcessor.posKey d.bounding_box) direct
        (VisionProcessor.posKey qr.bounding_box)
      let dc := crop_info.bind CropInfo.decoded_content
      let fq := VisionProcessor.formatOneQr crops direct qr
      (truthyStr dc = true →
        fq.content = dc.getD "" ∧ fq.decode_source = "crop") ∧
      (truthyStr dc = false →
        truthyStr (direct_qr.map DirectQr.content) = true →
        fq.content = (direct_qr.map DirectQr.content).getD "" ∧
          fq.decode_source = "direct") ∧
      (truthyStr dc = false →
        truthyStr (direct_qr.map DirectQr.content) = false →
        fq.content = "PENDING_SCAN" ∧ fq.decode_source = "none")) ∧
    (∀ (Img : Type) (h w : ℤ) (src : String) (dets : Detections)
      (cropOf : BBox → Img) (ladder : Img → Option String)
      (direct : List DirectQr) (save : Bool) (dir ts : String) (ms : ℤ),
      ∀ fq ∈ (VisionProcessor.processImage h w src dets cropOf ladder direct
        save dir ts ms).qr_codes,
        fq.decode_source = "direct" ∨
          (fq.decode_source = "none" ∧ fq.content = "PENDING_SCAN")) := by
  constructor
  · intro Img crops direct qr
    dsimp only
    refine ⟨?_, ?_, ?_⟩
    · intro hdc
      simp [VisionProcessor.formatOneQr, hdc]
    · intro hdc hdir
      simp [VisionProcessor.formatOneQr, hdc, hdir]
    · intro hdc hdir
      simp [VisionProcessor.formatOneQr, hdc, hdir]
  · intro Img h w src dets cropOf ladder direct save dir ts ms fq hfq
    have hcrops : ∀ ci ∈ (if dets.qr_codes.isEmpty then ([] : List (CropInfo Img))
        else VisionProcessor.decodeQrCrops ladder
          (YoloDetector.get_qr_crops cropOf dets
            (if save then some dir else none))),
        ci.decoded_content = none := by
      intro ci hci
      by_cases hemp : dets.qr_codes.isEmpty
      · rw [if_pos hemp] at hci
        exact absurd hci (List.not_mem_nil ci)
      · rw [if_neg hemp] at hci
        unfold VisionProcessor.decodeQrCrops at hci
        rw [List.mem_map] at hci
        obtain ⟨ci0, hci0, rfl⟩ := hci
        unfold YoloDetector.get_qr_crops at hci0
        rw [List.mem_map] at hci0
        obtain ⟨q, hq, rfl⟩ := hci0
        rfl
    unfold VisionProcessor.processImage at hfq
    simp only [VisionProcessor.formatQrCodes, List.mem_map] at hfq
    obtain ⟨qr, hqr, rfl⟩ := hfq
    have hdc : (VisionProcessor.dictFind CropInfo.qr_id
        (if dets.qr_codes.isEmpty then ([] : List (CropInfo Img))
          else VisionProcessor.decodeQrCrops ladder
            (YoloDetector.get_qr_crops cropOf dets
              (if save then some dir else none))) qr.qr_id).bind
        CropInfo.decoded_content = none := by
      cases hfind : VisionProcessor.dictFind CropInfo.qr_id
          (if dets.qr_codes.isEmpty then ([] : List (CropInfo Img))
            else VisionProcessor.decodeQrCrops ladder
              (YoloDetector.get_qr_crops cropOf dets
                (if save then some dir else none))) qr.qr_id with
      | none => rfl
      | some ci =>
        have hmem : ci ∈ (if dets.qr_codes.isEmpty then ([] : List (CropInfo Img))
            else VisionProcessor.decodeQrCrops ladder
              (YoloDetector.get_qr_crops cropOf dets
                (if save then some dir else none))) := by
          have := List.mem_of_find?_eq_some hfind
          exact (List.mem_reverse).mp this
        simp [hcrops ci hmem]
    by_cases hdir : truthyStr ((VisionProcessor.dictFind
        (fun d => VisionProcessor.posKey d.bounding_box) direct
        (VisionProcessor.posKey qr.bounding_box)).map DirectQr.content) = true
    · refine Or.inl ?_
      simp only [VisionProcessor.formatOneQr]
      rw [hdc, if_neg (by decide : ¬ (truthyStr (none : Option String) = true)),
        if_pos hdir]
    · rw [Bool.not_eq_true] at hdir
      refine Or.inr ⟨?_, ?_⟩ <;>
      · simp only [VisionProcessor.formatOneQr]
        rw [hdc, if_neg (by decide : ¬ (truthyStr (none : Option String) = true)),
          if_neg (by simp [hdir])]

/-- **C4, witness.** The amended selection at an explicit detection with
no crops and no direct decodes: `PENDING_SCAN` with source `none`. -/
theorem C4_qr_content_priority_witness :
    (VisionProcessor.formatOneQr ([] : List (CropInfo Unit)) []
        { confidence := 1,
          bounding_box := { x := 10, y := 10, width := 1, height := 1 },
          cls := "qr_code", class_id := 1, qr_id := "QR_001" }).content =
      "PENDING_SCAN" ∧
    (VisionProcessor.formatOneQr ([] : List (CropInfo Unit)) []
        { confidence := 1,
          bounding_box := { x := 10, y := 10, width := 1, height := 1 },
          cls := "qr_code", class_id := 1, qr_id := "QR_001" }).decode_source =
      "none" :=
  (C4_qr_content_priority.1 Unit [] []
    { confidence := 1,
      bounding_box := { x := 10, y := 10, width := 1, height := 1 },
      cls := "qr_code", class_id := 1, qr_id := "QR_001" }).2.2 rfl rfl


/-- Scaling an integer up by `s` (with floor) and back down (with floor)
never overshoots. -/
theorem floor_scale_le (s : ℚ) (hs : 0 < s) (v : ℤ) :
    ⌊((⌊(v : ℚ) * s⌋ : ℤ) : ℚ) / s⌋ ≤ v := by
  have h2 : ((⌊(v : ℚ) * s⌋ : ℤ) : ℚ) / s ≤ (v : ℚ) := by
    rw [div_le_iff₀ hs]
    exact Int.floor_le _
  calc ⌊((⌊(v : ℚ) * s⌋ : ℤ) : ℚ) / s⌋ ≤ ⌊(v : ℚ)⌋ := Int.floor_le_floor h2
    _ = v := Int.floor_intCast v

/-- Scaling an integer up by `s` (with floor) and back down (with floor)
loses at most `⌈1/s⌉`. -/
theorem floor_scale_lb (s : ℚ) (hs : 0 < s) (v : ℤ) :
    v - ⌈1 / s⌉ ≤ ⌊((⌊(v : ℚ) * s⌋ : ℤ) : ℚ) / s⌋ := by
  apply Int.le_floor.mpr
  have h1 : (v : ℚ) * s - 1 < ((⌊(v : ℚ) * s⌋ : ℤ) : ℚ) :=
    Int.sub_one_lt_floor ((v : ℚ) * s)
  have h2 : (v : ℚ) - 1 / s < ((⌊(v : ℚ) * s⌋ : ℤ) : ℚ) / s := by
    rw [lt_div_iff₀ hs]
    have : ((v : ℚ) - 1 / s) * s = (v : ℚ) * s - 1 := by
      field_simp
    linarith
  have h3 : (1 : ℚ) / s ≤ ((⌈1 / s⌉ : ℤ) : ℚ) := Int.le_ceil _
  push_cast
  linarith

/-- One axis of the projection/reconciliation round trip, following the
computation of `convert_coordinates_to_original` applied to a projected
box: `v` is the coordinate, `u` the extent, `L` the original axis
length, `o` the letterbox offset (which cancels).  Both reconstructed
values sit within `⌈1/s⌉` below the originals. -/
theorem axis_roundtrip (s : ℚ) (hs : 0 < s) (v u L o : ℤ)
    (hv : 0 ≤ v) (hu : 0 ≤ u) (hsum : v + u ≤ L) :
    let n : ℤ := pyInt ((L : ℚ) * s)
    let v1 : ℤ := max 0 (min ((pyInt ((v : ℚ) * s) + o) - o) n)
    let v2 : ℤ := min (v1 + pyInt ((u : ℚ) * s)) n
    let r1 : ℤ := max 0 (min (pyInt ((v1 : ℚ) / s)) L)
    let r2 : ℤ := min (pyInt (((v2 - v1 : ℤ) : ℚ) / s)) (L - r1)
    (0 ≤ v - r1 ∧ v - r1 ≤ ⌈1 / s⌉) ∧ (0 ≤ u - r2 ∧ u - r2 ≤ ⌈1 / s⌉) := by
  intro n v1 v2 r1 r2
  have hvL : v ≤ L := by omega
  have huL : u ≤ L := by omega
  have hL : 0 ≤ L := by omega
  have hvq : (0 : ℚ) ≤ (v : ℚ) * s :=
    mul_nonneg (by exact_mod_cast hv) hs.le
  have huq : (0 : ℚ) ≤ (u : ℚ) * s :=
    mul_nonneg (by exact_mod_cast hu) hs.le
  have hLq : (0 : ℚ) ≤ (L : ℚ) * s :=
    mul_nonneg (by exact_mod_cast hL) hs.le
  have ea : pyInt ((v : ℚ) * s) = ⌊(v : ℚ) * s⌋ := pyInt_eq_floor _ hvq
  have eb : pyInt ((u : ℚ) * s) = ⌊(u : ℚ) * s⌋ := pyInt_eq_floor _ huq
  have en : pyInt ((L : ℚ) * s) = ⌊(L : ℚ) * s⌋ := pyInt_eq_floor _ hLq
  have ha0 : 0 ≤ ⌊(v : ℚ) * s⌋ := Int.le_floor.mpr (by exact_mod_cast hvq)
  have hb0 : 0 ≤ ⌊(u : ℚ) * s⌋ := Int.le_floor.mpr (by exact_mod_cast huq)
  have han : ⌊(v : ℚ) * s⌋ ≤ ⌊(L : ℚ) * s⌋ :=
    Int.floor_le_floor
      (mul_le_mul_of_nonneg_right (by exact_mod_cast hvL) hs.le)
  have hab : ⌊(v : ℚ) * s⌋ + ⌊(u : ℚ) * s⌋ ≤ ⌊(L : ℚ) * s⌋ := by
    apply Int.le_floor.mpr
    push_cast
    calc ((⌊(v : ℚ) * s⌋ : ℤ) : ℚ) + ((⌊(u : ℚ) * s⌋ : ℤ) : ℚ) ≤
        (v : ℚ) * s + (u : ℚ) * s :=
          add_le_add (Int.floor_le _) (Int.floor_le _)
      _ = ((v + u : ℤ) : ℚ) * s := by push_cast; ring
      _ ≤ (L : ℚ) * s :=
          mul_le_mul_of_nonneg_right (by exact_mod_cast hsum) hs.le
  have hv1 : v1 = ⌊(v : ℚ) * s⌋ := by
    show max 0 (min ((pyInt ((v : ℚ) * s) + o) - o) n) = _
    rw [add_sub_cancel_right, ea]
    show max 0 (min _ (pyInt ((L : ℚ) * s))) = _
    rw [en, min_eq_left han, max_eq_right ha0]
  have hv2 : v2 = ⌊(v : ℚ) * s⌋ + ⌊(u : ℚ) * s⌋ := by
    show min (v1 + pyInt ((u : ℚ) * s)) n = _
    rw [hv1, eb]
    show min _ (pyInt ((L : ℚ) * s)) = _
    rw [en, min_eq_left hab]
  have hX : pyInt ((v1 : ℚ) / s) = ⌊((⌊(v : ℚ) * s⌋ : ℤ) : ℚ) / s⌋ := by
    rw [hv1, pyInt_eq_floor _ (div_nonneg (by exact_mod_cast ha0) hs.le)]
  have hXv : ⌊((⌊(v : ℚ) * s⌋ : ℤ) : ℚ) / s⌋ ≤ v := floor_scale_le s hs v
  have hX0 : 0 ≤ ⌊((⌊(v : ℚ) * s⌋ : ℤ) : ℚ) / s⌋ :=
    Int.le_floor.mpr
      (by push_cast; exact div_nonneg (by exact_mod_cast ha0) hs.le)
  have hr1 : r1 = ⌊((⌊(v : ℚ) * s⌋ : ℤ) : ℚ) / s⌋ := by
    show max 0 (min (pyInt ((v1 : ℚ) / s)) L) = _
    rw [hX, min_eq_left (le_trans hXv hvL), max_eq_right hX0]
  have hYu : ⌊((⌊(u : ℚ) * s⌋ : ℤ) : ℚ) / s⌋ ≤ u := floor_scale_le s hs u
  have hY : pyInt (((v2 - v1 : ℤ) : ℚ) / s) =
      ⌊((⌊(u : ℚ) * s⌋ : ℤ) : ℚ) / s⌋ := by
    have : v2 - v1 = ⌊(u : ℚ) * s⌋ := by omega
    rw [this, pyInt_eq_floor _ (div_nonneg (by exact_mod_cast hb0) hs.le)]
  have hr2 : r2 = ⌊((⌊(u : ℚ) * s⌋ : ℤ) : ℚ) / s⌋ := by
    show min (pyInt (((v2 - v1 : ℤ) : ℚ) / s)) (L - r1) = _
    rw [hY, hr1]
    exact min_eq_left (by omega)
  refine ⟨⟨?_, ?_⟩, ⟨?_, ?_⟩⟩
  · rw [hr1]; omega
  · rw [hr1]
    have := floor_scale_lb s hs v
    omega
  · rw [hr2]; omega
  · rw [hr2]
    have := floor_scale_lb s hs u
    omega

/-- **C9, counterexample.** For a 1920×1920 image (scale factor 1/3) and
the original-coordinates box `(5, 5, 6, 6)`, projecting to processed
coordinates and reconciling back yields `(3, 3, 6, 6)`: the error on `x`
(and `y`) is `2 > 1`, refuting the claimed one-pixel bound. -/
theorem C9_roundtrip_error_exceeds_one :
    let m := ImagePreprocessor.preprocessMeta (640, 640) 1920 1920
    let B : BBox := { x := 5, y := 5, width := 6, height := 6 }
    CoordinateUtils.convert_coordinates_to_original
        (CoordinateUtils.projectToProcessed B m) m =
      { x := 3, y := 3, width := 6, height := 6 } ∧
    ¬ (|(5 : ℤ) - 3| ≤ 1) := by
  refine ⟨?_, by decide⟩
  norm_num [CoordinateUtils.convert_coordinates_to_original,
    CoordinateUtils.projectToProcessed, ImagePreprocessor.preprocessMeta,
    ImagePreprocessor.resize_scale, pyInt_eq_floor, pyFloorDiv_eq_div]

/-- **C9, amended.** The projection/reconciliation round trip for a box
inside an `h × w` image (`h, w ≥ 1`) never overshoots and loses at most
`⌈1/scale⌉` per component: each of `x`, `y`, `width`, `height` comes
back smaller by between `0` and `⌈1/scale_factor⌉` pixels (so the
claimed bound `1` holds exactly when `scale_factor ≥ 1`, i.e. for images
no larger than the 640×640 target). -/
theorem C9_roundtrip_bound (h w : ℤ) (B : BBox)
    (hw : 1 ≤ w) (hh : 1 ≤ h)
    (hx : 0 ≤ B.x) (hy : 0 ≤ B.y) (hwd : 0 ≤ B.width) (hht : 0 ≤ B.height)
    (hxw : B.x + B.width ≤ w) (hyh : B.y + B.height ≤ h) :
    let m := ImagePreprocessor.preprocessMeta (640, 640) h w
    let B' := CoordinateUtils.convert_coordinates_to_original
      (CoordinateUtils.projectToProcessed B m) m
    (0 ≤ B.x - B'.x ∧ B.x - B'.x ≤ ⌈1 / m.scale_factor⌉) ∧
    (0 ≤ B.y - B'.y ∧ B.y - B'.y ≤ ⌈1 / m.scale_factor⌉) ∧
    (0 ≤ B.width - B'.width ∧ B.width - B'.width ≤ ⌈1 / m.scale_factor⌉) ∧
    (0 ≤ B.height - B'.height ∧
      B.height - B'.height ≤ ⌈1 / m.scale_factor⌉) := by
  intro m B'
  have hwq : (0 : ℚ) < (w : ℚ) := by exact_mod_cast lt_of_lt_of_le one_pos hw
  have hhq : (0 : ℚ) < (h : ℚ) := by exact_mod_cast lt_of_lt_of_le one_pos hh
  have hs : 0 < ImagePreprocessor.resize_scale (640, 640) h w := by
    unfold ImagePreprocessor.resize_scale
    exact lt_min (by positivity) (by positivity)
  have Hx := axis_roundtrip (ImagePreprocessor.resize_scale (640, 640) h w)
    hs B.x B.width w
    (pyFloorDiv (640 - pyInt ((w : ℚ) *
      ImagePreprocessor.resize_scale (640, 640) h w)) 2) hx hwd hxw
  have Hy := axis_roundtrip (ImagePreprocessor.resize_scale (640, 640) h w)
    hs B.y B.height h
    (pyFloorDiv (640 - pyInt ((h : ℚ) *
      ImagePreprocessor.resize_scale (640, 640) h w)) 2) hy hht hyh
  dsimp only at Hx Hy
  exact ⟨Hx.1, Hy.1, Hx.2, Hy.2⟩

/-- **C9, witness.** The amended bound at an explicit instance: a
640×640 image (scale factor 1), where the round trip reproduces the box
within `⌈1/1⌉ = 1`. -/
theorem C9_roundtrip_bound_witness :
    let m := ImagePreprocessor.preprocessMeta (640, 640) 640 640
    let B : BBox := { x := 100, y := 180, width := 200, height := 150 }
    let B' := CoordinateUtils.convert_coordinates_to_original
      (CoordinateUtils.projectToProcessed B m) m
    (0 ≤ B.x - B'.x ∧ B.x - B'.x ≤ ⌈1 / m.scale_factor⌉) ∧
    (0 ≤ B.y - B'.y ∧ B.y - B'.y ≤ ⌈1 / m.scale_factor⌉) ∧
    (0 ≤ B.width - B'.width ∧ B.width - B'.width ≤ ⌈1 / m.scale_factor⌉) ∧
    (0 ≤ B.height - B'.height ∧
      B.height - B'.height ≤ ⌈1 / m.scale_factor⌉) :=
  C9_roundtrip_bound 640 640
    { x := 100, y := 180, width := 200, height := 150 }
    (by decide) (by decide) (by decide) (by decide) (by decide) (by decide)
    (by decide) (by decide)
